import Mathlib

/-!
Verification of the RoI_Calculator core (random_type.py and cash_flow.py)
against its natural-language specification.

Shallow embedding conventions:
* Python floats are modelled as rationals; the year-interval bounds, whose
  default upper bound is `math.inf`, are modelled as `WithTop Rat`.
* The `random` module is modelled as an oracle `Rng`: a pair of streams
  indexed by the number of draws made so far, so that sampling is a pure
  state-passing function and determinism claims are expressible.
* Fallible Python code (raising exceptions, implicit `None` returns,
  out-of-range list indexing) is modelled with `Except` / `Option`.
-/

namespace RoI

/-- Year bounds are floats in the source with `math.inf` as the default end
bound; modelled as rationals extended with a top element. -/
abbrev YearBound := WithTop ℚ

/-- Oracle model of the `random` module: `gaussVals n mu sigma` is the value
returned by the n-th draw if that draw is `random.gauss(mu, sigma)`, and
`paretoVals n alpha` the value if it is `random.paretovariate(alpha)`;
`pos` counts the draws made so far. -/
structure Rng where
  gaussVals : Nat → ℚ → ℚ → ℚ
  paretoVals : Nat → ℚ → ℚ
  pos : Nat

/-- Model of `random.gauss(mu, sigma)`: consumes one draw. -/
def Rng.gauss (r : Rng) (mu sigma : ℚ) : ℚ × Rng :=
  (r.gaussVals r.pos mu sigma, { r with pos := r.pos + 1 })

/-- Model of `random.paretovariate(alpha)`: consumes one draw. -/
def Rng.paretovariate (r : Rng) (alpha : ℚ) : ℚ × Rng :=
  (r.paretoVals r.pos alpha, { r with pos := r.pos + 1 })

/-- The three distribution variants of random_type.py (`Gaussian`,
`Constant`, `Pareto`), each carrying its shape parameters and the inclusive
active interval bounds `start_year` / `end_year`. -/
inductive RandomType where
  | gaussian (mu sigma : ℚ) (start_year end_year : YearBound)
  | constant (value : ℚ) (start_year end_year : YearBound)
  | pareto (alpha : ℚ) (start_year end_year : YearBound)
  deriving DecidableEq

/-- The `start_year` attribute, common to all three variants. -/
def RandomType.start_year : RandomType → YearBound
  | .gaussian _ _ sy _ => sy
  | .constant _ sy _ => sy
  | .pareto _ sy _ => sy

/-- The `end_year` attribute, common to all three variants. -/
def RandomType.end_year : RandomType → YearBound
  | .gaussian _ _ _ ey => ey
  | .constant _ _ ey => ey
  | .pareto _ _ ey => ey

/-- Embedding of `sample_value(year)` for the three variants of
random_type.py: inside the inclusive interval the variant draws from its
family (Gaussian and Pareto consume one oracle draw, Constant returns its
stored value); outside the interval the result is 0.0 and no draw is made,
mirroring the `if year >= self.start_year and year <= self.end_year` guard
of each variant. -/
def RandomType.sample_value (rt : RandomType) (year : ℚ) (rng : Rng) : ℚ × Rng :=
  match rt with
  | .gaussian mu sigma sy ey =>
      if (year : YearBound) ≥ sy ∧ (year : YearBound) ≤ ey then
        rng.gauss mu sigma
      else
        (0, rng)
  | .constant v sy ey =>
      if (year : YearBound) ≥ sy ∧ (year : YearBound) ≤ ey then
        (v, rng)
      else
        (0, rng)
  | .pareto a sy ey =>
      if (year : YearBound) ≥ sy ∧ (year : YearBound) ≤ ey then
        rng.paretovariate a
      else
        (0, rng)

/-- A concrete oracle, used to instantiate universally quantified theorems. -/
def rng0 : Rng :=
  { gaussVals := fun _ _ _ => 0, paretoVals := fun _ _ => 0, pos := 0 }

/-- A cash flow item of cash_flow.py: one named cost line with an upfront
and a recurring cost distribution. -/
structure CashFlowItem where
  name : String
  desc : String
  upfront_cost : RandomType
  recurring_cost : RandomType
  deriving DecidableEq

/-- The Python value assigned to a cost attribute of a CashFlowItem:
a RandomType instance, a plain number (int or float), the value None,
or a value of any other type (identified here only by a type name, since
no other structure of it is inspected by the code). -/
inductive CostValue where
  | rand (rt : RandomType)
  | num (x : ℚ)
  | pynone
  | other (tyname : String)

/-- Embedding of CashFlowItem._checkCost: a RandomType passes through
unchanged, a plain number is wrapped as `Constant(value=cost)` with the
default interval (start 0, end infinity), and anything else raises
TypeError, modelled as an `Except.error`. -/
def CashFlowItem.checkCost : CostValue → Except String RandomType
  | .rand rt => .ok rt
  | .num x => .ok (.constant x ((0 : ℚ) : YearBound) ⊤)
  | .pynone => .error "cost must be a RandomType, float or int"
  | .other _ => .error "cost must be a RandomType, float or int"

/-- The upfront_cost property setter: stores the result of the cost check,
or propagates its rejection, in which case the item is left unchanged. -/
def CashFlowItem.set_upfront_cost (it : CashFlowItem) (cost : CostValue) :
    Except String CashFlowItem :=
  (CashFlowItem.checkCost cost).map (fun rt => { it with upfront_cost := rt })

/-- The recurring_cost property setter, analogous to the upfront one. -/
def CashFlowItem.set_recurring_cost (it : CashFlowItem) (cost : CostValue) :
    Except String CashFlowItem :=
  (CashFlowItem.checkCost cost).map (fun rt => { it with recurring_cost := rt })

/-- CashFlowItem.get_upfront_cost: samples the upfront distribution at
year 0. -/
def CashFlowItem.get_upfront_cost (it : CashFlowItem) (rng : Rng) : ℚ × Rng :=
  it.upfront_cost.sample_value 0 rng

/-- CashFlowItem.get_recurring_cost: samples the recurring distribution at
the given year. -/
def CashFlowItem.get_recurring_cost (it : CashFlowItem) (year : ℚ) (rng : Rng) : ℚ × Rng :=
  it.recurring_cost.sample_value year rng

/-- State-passing map threading the random oracle left to right through a
list, as a Python list comprehension over sampling calls does. -/
def mapRng {α β : Type} (f : α → Rng → β × Rng) : List α → Rng → List β × Rng
  | [], rng => ([], rng)
  | a :: as, rng =>
      let (b, rng1) := f a rng
      let (bs, rng2) := mapRng f as rng1
      (b :: bs, rng2)

/-- A cash flow group of cash_flow.py: an ordered collection of items. -/
structure CashFlowGroup where
  name : String
  desc : String
  items : List CashFlowItem
  deriving DecidableEq

/-- CashFlowGroup.add_items: extends the item list. The elementwise type
check of _check_items is discharged by the Lean type of the argument. -/
def CashFlowGroup.add_items (g : CashFlowGroup) (new : List CashFlowItem) : CashFlowGroup :=
  { g with items := g.items ++ new }

/-- The items property setter: resets the list to empty and then
add_items the given list, as the source setter does. -/
def CashFlowGroup.set_items (g : CashFlowGroup) (items : List CashFlowItem) : CashFlowGroup :=
  CashFlowGroup.add_items { g with items := [] } items

/-- CashFlowGroup.remove_items: assigns through the items setter the list
comprehension keeping the items whose name is not in item_names. -/
def CashFlowGroup.remove_items (g : CashFlowGroup) (item_names : List String) : CashFlowGroup :=
  g.set_items (g.items.filter (fun item => !(item_names.contains item.name)))

/-- CashFlowGroup.get_items: the items whose name is in item_names. -/
def CashFlowGroup.get_items (g : CashFlowGroup) (item_names : List String) : List CashFlowItem :=
  g.items.filter (fun item => item_names.contains item.name)

/-- CashFlowGroup.get_upfront_cost: list of upfront samples of the items. -/
def CashFlowGroup.get_upfront_cost (g : CashFlowGroup) (rng : Rng) : List ℚ × Rng :=
  mapRng CashFlowItem.get_upfront_cost g.items rng

/-- CashFlowGroup.get_recurring_cost: list of recurring samples of the
items at the given year. -/
def CashFlowGroup.get_recurring_cost (g : CashFlowGroup) (year : ℚ) (rng : Rng) :
    List ℚ × Rng :=
  mapRng (fun it => it.get_recurring_cost year) g.items rng

/-- The cash flow sheet of cash_flow.py: an ordered collection of groups,
root of the hierarchy. -/
structure CashFlowSheet where
  groups : List CashFlowGroup
  deriving DecidableEq

/-- CashFlowSheet.add_groups: extends the group list. -/
def CashFlowSheet.add_groups (sh : CashFlowSheet) (new : List CashFlowGroup) : CashFlowSheet :=
  { sh with groups := sh.groups ++ new }

/-- The groups property setter: resets to empty then add_groups. -/
def CashFlowSheet.set_groups (sh : CashFlowSheet) (groups : List CashFlowGroup) : CashFlowSheet :=
  CashFlowSheet.add_groups { sh with groups := [] } groups

/-- CashFlowSheet.remove_groups: assigns through the groups setter the
list comprehension keeping the groups whose name is not in group_names. -/
def CashFlowSheet.remove_groups (sh : CashFlowSheet) (group_names : List String) : CashFlowSheet :=
  sh.set_groups (sh.groups.filter (fun group => !(group_names.contains group.name)))

/-- CashFlowSheet.get_groups: the groups whose name is in group_names. -/
def CashFlowSheet.get_groups (sh : CashFlowSheet) (group_names : List String) :
    List CashFlowGroup :=
  sh.groups.filter (fun group => group_names.contains group.name)

/-- CashFlowSheet.get_upfront_cost: nested list of upfront samples, one
inner list per group. -/
def CashFlowSheet.get_upfront_cost (sh : CashFlowSheet) (rng : Rng) : List (List ℚ) × Rng :=
  mapRng CashFlowGroup.get_upfront_cost sh.groups rng

/-- CashFlowSheet.get_recurring_cost: nested list of recurring samples at
the given year, one inner list per group. -/
def CashFlowSheet.get_recurring_cost (sh : CashFlowSheet) (year : ℚ) (rng : Rng) :
    List (List ℚ) × Rng :=
  mapRng (fun g => g.get_recurring_cost year) sh.groups rng

/-- CashFlowSheet.get_cash_flow: the total cash flow is the upfront matrix
for year 0 followed by the recurring matrix of each year 1..years; the net
cash flow sums every leaf of each matrix per year. -/
def CashFlowSheet.get_cash_flow (sh : CashFlowSheet) (years : ℕ) (rng : Rng) :
    (List (List (List ℚ)) × List ℚ) × Rng :=
  let (upfront, rng1) := sh.get_upfront_cost rng
  let (recurring, rng2) :=
    mapRng (fun y => sh.get_recurring_cost ((y : ℚ))) (List.range' 1 years) rng1
  let total_cash_flow := upfront :: recurring
  let net_cash_flow :=
    total_cash_flow.map (fun year => (year.map (fun grps => grps.sum)).sum)
  ((total_cash_flow, net_cash_flow), rng2)

/-- C1: for every distribution variant and every year strictly outside the
inclusive interval, `sample_value` returns exactly 0.0, deterministically
(the oracle state is untouched, so no randomness is consumed), regardless
of the shape parameters. -/
theorem c1_outside_interval_sample_zero (rt : RandomType) (year : ℚ) (rng : Rng)
    (h : (year : YearBound) < rt.start_year ∨ rt.end_year < (year : YearBound)) :
    rt.sample_value year rng = (0, rng) := by
  cases rt with
  | gaussian mu sigma sy ey =>
      simp only [RandomType.start_year, RandomType.end_year] at h
      simp only [RandomType.sample_value]
      rw [if_neg]
      rintro ⟨h1, h2⟩
      rcases h with h | h
      · exact absurd h1 (not_le.mpr h)
      · exact absurd h2 (not_le.mpr h)
  | constant v sy ey =>
      simp only [RandomType.start_year, RandomType.end_year] at h
      simp only [RandomType.sample_value]
      rw [if_neg]
      rintro ⟨h1, h2⟩
      rcases h with h | h
      · exact absurd h1 (not_le.mpr h)
      · exact absurd h2 (not_le.mpr h)
  | pareto a sy ey =>
      simp only [RandomType.start_year, RandomType.end_year] at h
      simp only [RandomType.sample_value]
      rw [if_neg]
      rintro ⟨h1, h2⟩
      rcases h with h | h
      · exact absurd h1 (not_le.mpr h)
      · exact absurd h2 (not_le.mpr h)

/-- Witness for C1: a Gaussian active on years 1 and later, sampled at
year 0, yields exactly 0 and leaves the oracle untouched. -/
theorem c1_outside_interval_sample_zero_witness :
    (((0 : ℚ) : YearBound) < (RandomType.gaussian 3 1 ((1 : ℚ) : YearBound) ⊤).start_year
      ∨ (RandomType.gaussian 3 1 ((1 : ℚ) : YearBound) ⊤).end_year < ((0 : ℚ) : YearBound))
    ∧ (RandomType.gaussian 3 1 ((1 : ℚ) : YearBound) ⊤).sample_value 0 rng0 = (0, rng0) := by
  have h : (((0 : ℚ) : YearBound) < (RandomType.gaussian 3 1 ((1 : ℚ) : YearBound) ⊤).start_year
      ∨ (RandomType.gaussian 3 1 ((1 : ℚ) : YearBound) ⊤).end_year < ((0 : ℚ) : YearBound)) := by
    left
    simp only [RandomType.start_year]
    exact_mod_cast (by norm_num : (0 : ℚ) < 1)
  exact ⟨h, c1_outside_interval_sample_zero _ _ _ h⟩

/-- C8: a Constant distribution sampled at any year inside its inclusive
active interval returns exactly its stored value, with the oracle state
untouched (no randomness involved). -/
theorem c8_constant_active_returns_value (v : ℚ) (sy ey : YearBound) (year : ℚ) (rng : Rng)
    (h1 : sy ≤ (year : YearBound)) (h2 : (year : YearBound) ≤ ey) :
    (RandomType.constant v sy ey).sample_value year rng = (v, rng) := by
  simp only [RandomType.sample_value]
  exact if_pos ⟨h1, h2⟩

/-- Witness for C8: the Constant 5 with default interval, sampled at
year 2, returns 5 exactly. -/
theorem c8_constant_active_returns_value_witness :
    (((0 : ℚ) : YearBound) ≤ ((2 : ℚ) : YearBound)
      ∧ ((2 : ℚ) : YearBound) ≤ (⊤ : YearBound))
    ∧ (RandomType.constant 5 ((0 : ℚ) : YearBound) ⊤).sample_value 2 rng0 = (5, rng0) := by
  have h1 : ((0 : ℚ) : YearBound) ≤ ((2 : ℚ) : YearBound) := by
    exact_mod_cast (by norm_num : (0 : ℚ) ≤ 2)
  have h2 : ((2 : ℚ) : YearBound) ≤ (⊤ : YearBound) := le_top
  exact ⟨⟨h1, h2⟩, c8_constant_active_returns_value 5 _ _ 2 rng0 h1 h2⟩

/-- The Summary engine state of cash_flow.py: one sheet, the evaluation
parameters, the sampled flag, and the two cached derived fields
(_total_cash_flow and _net_cash_flow; empty before the first sampling,
which in the source simply leaves the attributes unset — they are only
ever read after sampling). -/
structure Summary where
  cash_flow_sheet : CashFlowSheet
  interest_rate : ℚ
  years : ℕ
  iterations : ℕ
  sampled : Bool
  totalCache : List (List (List ℚ))
  netCache : List ℚ
  deriving DecidableEq

/-- Summary.sample_cash_flow: draws a fresh cash flow from the sheet,
stores both caches and sets the sampled flag. -/
def Summary.sample_cash_flow (s : Summary) (rng : Rng) : Summary × Rng :=
  let ((total_cash_flow, net_cash_flow), rng1) := s.cash_flow_sheet.get_cash_flow s.years rng
  ({ s with totalCache := total_cash_flow, netCache := net_cash_flow, sampled := true }, rng1)

/-- The total_cash_flow property: samples first if the flag is unset, then
returns the cache; the read also returns the possibly updated engine state
and oracle. -/
def Summary.total_cash_flow (s : Summary) (rng : Rng) :
    List (List (List ℚ)) × Summary × Rng :=
  if s.sampled then (s.totalCache, s, rng)
  else
    let (s1, rng1) := s.sample_cash_flow rng
    (s1.totalCache, s1, rng1)

/-- The net_cash_flow property: samples first if the flag is unset, then
returns the cache. -/
def Summary.net_cash_flow (s : Summary) (rng : Rng) : List ℚ × Summary × Rng :=
  if s.sampled then (s.netCache, s, rng)
  else
    let (s1, rng1) := s.sample_cash_flow rng
    (s1.netCache, s1, rng1)

/-- Model of numpy np.npv(rate, values): the sum of values[t] divided by
(1+rate) to the power t, over t = 0 .. len(values)-1. -/
def np_npv (rate : ℚ) (values : List ℚ) : ℚ :=
  ∑ t ∈ Finset.range values.length, values.getD t 0 / (1 + rate) ^ t

/-- Summary.get_NPV: samples first if needed, then np.npv of the cached
net cash flow at the stored interest rate. -/
def Summary.get_NPV (s : Summary) (rng : Rng) : ℚ × Summary × Rng :=
  if s.sampled then (np_npv s.interest_rate s.netCache, s, rng)
  else
    let (s1, rng1) := s.sample_cash_flow rng
    (np_npv s1.interest_rate s1.netCache, s1, rng1)

/-- Summary.get_IRR: samples first if needed, then np.irr of the cached
net cash flow. The numerical root finder np.irr is an external library
function; the caching behaviour is proved for every possible such
function, passed here as a parameter. -/
def Summary.get_IRR (np_irr : List ℚ → ℚ) (s : Summary) (rng : Rng) : ℚ × Summary × Rng :=
  if s.sampled then (np_irr s.netCache, s, rng)
  else
    let (s1, rng1) := s.sample_cash_flow rng
    (np_irr s1.netCache, s1, rng1)

/-- Running sum with accumulator, helper for np.cumsum. -/
def cumsumFrom (acc : ℚ) : List ℚ → List ℚ
  | [] => []
  | x :: xs => (acc + x) :: cumsumFrom (acc + x) xs

/-- Model of numpy np.cumsum on a one-dimensional list. -/
def np_cumsum (l : List ℚ) : List ℚ := cumsumFrom 0 l

/-- Python list indexing: a negative index counts from the end; an index
out of range raises IndexError, modelled as none. -/
def pyGet (l : List ℚ) (i : ℤ) : Option ℚ :=
  let j : ℤ := if i < 0 then (l.length : ℤ) + i else i
  if j < 0 then none else l.get? j.toNat

/-- The search loop of get_payback_period: for year in range(years), stop
at the first year whose cumulative cash flow is strictly positive; the
fallback value when the loop completes is years itself. The loop is given
by the current year and the number of remaining iterations (initially
years, so that on exhaustion the current year equals years, the fallback
of the source). An out-of-range access inside the loop (possible only
when the cumulative list is shorter than the range) is an IndexError,
modelled as none. -/
def firstPositiveYearLoop (cumsum : List ℚ) : ℕ → ℕ → Option ℕ
  | year, 0 => some year
  | year, remaining + 1 =>
    match cumsum.get? year with
    | none => none
    | some v => if 0 < v then some year else firstPositiveYearLoop cumsum (year + 1) remaining

/-- The body of Summary.get_payback_period on an already sampled net cash
flow: cumulative sums, the first-positive-year loop, complete_years one
less than the found year, and the interpolated result
complete_years + abs(cumsum[complete_years] / net[first_positive_year]),
with both indexings following Python semantics (negative indices count
from the end, out of range raises). -/
def payback_of_net (years : ℕ) (net_cash_flow : List ℚ) : Option ℚ :=
  let cumsum_cash_flow := np_cumsum net_cash_flow
  match firstPositiveYearLoop cumsum_cash_flow 0 years with
  | none => none
  | some first_positive_year =>
    let complete_years : ℤ := (first_positive_year : ℤ) - 1
    match pyGet cumsum_cash_flow complete_years, pyGet net_cash_flow (first_positive_year : ℤ) with
    | some c, some n => some ((complete_years : ℚ) + |c / n|)
    | _, _ => none

/-- Summary.get_payback_period: samples first if needed, then computes the
payback period of the cached net cash flow. -/
def Summary.get_payback_period (s : Summary) (rng : Rng) : Option ℚ × Summary × Rng :=
  if s.sampled then (payback_of_net s.years s.netCache, s, rng)
  else
    let (s1, rng1) := s.sample_cash_flow rng
    (payback_of_net s1.years s1.netCache, s1, rng1)

/-- Structured record of a serialized distribution element: one variant
per recognized tag carrying the shape parameter texts and the two
interval-bound texts (none models an absent or empty bound element), and
one variant for an element with any other tag. -/
inductive RTElem where
  | gaussianE (mu sigma : ℚ) (startYear endYear : Option YearBound)
  | constantE (value : ℚ) (startYear endYear : Option YearBound)
  | paretoE (alpha : ℚ) (startYear endYear : Option YearBound)
  | unknownE (tag : String)
  deriving DecidableEq

/-- Embedding of the module helper _value_or_default of random_type.py:
an absent bound text yields the given default. -/
def value_or_default (value : Option YearBound) (default : YearBound) : YearBound :=
  value.getD default

/-- Embedding of the module helper _value_or_empty of random_type.py: a
bound equal to the given default is written as an empty text (modelled as
none, which a document round trip reads back as an absent text). -/
def value_or_empty (value compare_to : YearBound) : Option YearBound :=
  if value = compare_to then none else some value

/-- The generate_etree_element method of each variant of random_type.py:
the shape parameters are written verbatim, the interval bounds through
_value_or_empty against their defaults 0 and infinity. -/
def RandomType.generate_etree_element : RandomType → RTElem
  | .gaussian mu sigma sy ey =>
      .gaussianE mu sigma (value_or_empty sy ((0 : ℚ) : YearBound)) (value_or_empty ey ⊤)
  | .constant v sy ey =>
      .constantE v (value_or_empty sy ((0 : ℚ) : YearBound)) (value_or_empty ey ⊤)
  | .pareto a sy ey =>
      .paretoE a (value_or_empty sy ((0 : ℚ) : YearBound)) (value_or_empty ey ⊤)

namespace random_type

/-- The module-level create_from_etree_element of random_type.py: a chain
of tag comparisons dispatching to the classmethod of the matching
variant, each reading the bounds through _value_or_default; a tag
matching no branch falls off the end of the function, which in Python
returns the value None (modelled as none) — there is no raising path. -/
def create_from_etree_element : RTElem → Option RandomType
  | .gaussianE mu sigma sy ey =>
      some (.gaussian mu sigma (value_or_default sy ((0 : ℚ) : YearBound))
        (value_or_default ey ⊤))
  | .constantE v sy ey =>
      some (.constant v (value_or_default sy ((0 : ℚ) : YearBound))
        (value_or_default ey ⊤))
  | .paretoE a sy ey =>
      some (.pareto a (value_or_default sy ((0 : ℚ) : YearBound))
        (value_or_default ey ⊤))
  | .unknownE _ => none

end random_type

/-- Structured record of a serialized CashFlowItem element: the name text,
the desc text (none models an empty text after a document round trip),
and the single distribution element inside each cost wrapper element. -/
structure ItemElem where
  name : String
  desc : Option String
  upfrontCost : RTElem
  recurringCost : RTElem
  deriving DecidableEq

/-- An empty string text is serialized as an empty element, which a
document round trip reads back as an absent text. -/
def strOrNone (s : String) : Option String :=
  if s = "" then none else some s

/-- CashFlowItem.generate_etree_element: name and desc texts plus one
serialized distribution under each cost wrapper. -/
def CashFlowItem.generate_etree_element (it : CashFlowItem) : ItemElem :=
  { name := it.name, desc := strOrNone it.desc,
    upfrontCost := it.upfront_cost.generate_etree_element,
    recurringCost := it.recurring_cost.generate_etree_element }

/-- The Python value produced by the distribution dispatch, as it reaches
the cost type check: a RandomType instance, or the value None when the
dispatch fell through. -/
def costInput : Option RandomType → CostValue
  | some rt => .rand rt
  | none => .pynone

/-- CashFlowItem.create_from_etree_element: reads name and desc (an
absent desc text becomes the empty string), deserializes the single
distribution of each cost wrapper, and builds the item through the
constructor, whose cost setters run _checkCost on each value — a None
produced by an unrecognized distribution tag is rejected there with the
TypeError of _checkCost. -/
def CashFlowItem.create_from_etree_element (e : ItemElem) : Except String CashFlowItem := do
  let upfront_value := random_type.create_from_etree_element e.upfrontCost
  let recurring_value := random_type.create_from_etree_element e.recurringCost
  let upfront_cost ← CashFlowItem.checkCost (costInput upfront_value)
  let recurring_cost ← CashFlowItem.checkCost (costInput recurring_value)
  return { name := e.name, desc := e.desc.getD "",
           upfront_cost := upfront_cost, recurring_cost := recurring_cost }

/-- Structured record of a serialized CashFlowGroup element. -/
structure GroupElem where
  name : String
  desc : Option String
  items : List ItemElem
  deriving DecidableEq

/-- CashFlowGroup.generate_etree_element: name and desc texts plus the
serialized items in order. -/
def CashFlowGroup.generate_etree_element (g : CashFlowGroup) : GroupElem :=
  { name := g.name, desc := strOrNone g.desc,
    items := g.items.map CashFlowItem.generate_etree_element }

/-- CashFlowGroup.create_from_etree_element: reads name and desc and
deserializes every item element in order. -/
def CashFlowGroup.create_from_etree_element (e : GroupElem) : Except String CashFlowGroup := do
  let items ← e.items.mapM CashFlowItem.create_from_etree_element
  return { name := e.name, desc := e.desc.getD "", items := items }

/-- Structured record of a serialized CashFlowSheet element. -/
structure SheetElem where
  groups : List GroupElem
  deriving DecidableEq

/-- CashFlowSheet.generate_etree_element: the serialized groups in
order. -/
def CashFlowSheet.generate_etree_element (sh : CashFlowSheet) : SheetElem :=
  { groups := sh.groups.map CashFlowGroup.generate_etree_element }

/-- CashFlowSheet.create_from_etree_element: deserializes every group
element in order. -/
def CashFlowSheet.create_from_etree_element (e : SheetElem) : Except String CashFlowSheet := do
  let groups ← e.groups.mapM CashFlowGroup.create_from_etree_element
  return { groups := groups }

/-- Structured record of a serialized Summary element: the InterestRate,
Years and Iterations texts (parsed as floats on read where read at all)
and the sheet element. -/
structure SummaryElem where
  interestRate : ℚ
  years : ℚ
  iterations : ℚ
  sheet : SheetElem
  deriving DecidableEq

/-- Summary.generate_etree_element: writes InterestRate, Years and
Iterations texts and the serialized sheet. -/
def Summary.generate_etree_element (s : Summary) : SummaryElem :=
  { interestRate := s.interest_rate, years := (s.years : ℚ),
    iterations := (s.iterations : ℚ),
    sheet := s.cash_flow_sheet.generate_etree_element }

/-- Summary.create_from_etree_element: builds the Summary from the sheet
element, the InterestRate text and the floor of the Years text. The
Iterations text of the element is never read: the constructor call passes
no iterations argument, so the default 10000 of the initializer applies;
the sampled flag starts false with empty caches as in the initializer. -/
def Summary.create_from_etree_element (e : SummaryElem) : Except String Summary := do
  let sheet ← CashFlowSheet.create_from_etree_element e.sheet
  return { cash_flow_sheet := sheet, interest_rate := e.interestRate,
           years := (Int.floor e.years).toNat, iterations := 10000,
           sampled := false, totalCache := [], netCache := [] }

/-- C6: assigning a cost to a CashFlowItem stores a RandomType value
unchanged; stores a plain number as a Constant with that value and the
default interval of 0 to infinity; and rejects any other value (None or a
value of any other type) with the TypeError of _checkCost — the error
carries no replacement item, so the previously stored cost is unchanged. -/
theorem c6_cost_assignment (it : CashFlowItem) :
    (∀ rt : RandomType,
        it.set_upfront_cost (.rand rt) = .ok { it with upfront_cost := rt }
        ∧ it.set_recurring_cost (.rand rt) = .ok { it with recurring_cost := rt })
    ∧ (∀ x : ℚ,
        it.set_upfront_cost (.num x) =
          .ok { it with upfront_cost := .constant x ((0 : ℚ) : YearBound) ⊤ }
        ∧ it.set_recurring_cost (.num x) =
          .ok { it with recurring_cost := .constant x ((0 : ℚ) : YearBound) ⊤ })
    ∧ (∀ t : String,
        it.set_upfront_cost (.other t) = .error "cost must be a RandomType, float or int"
        ∧ it.set_recurring_cost (.other t) = .error "cost must be a RandomType, float or int")
    ∧ (it.set_upfront_cost .pynone = .error "cost must be a RandomType, float or int"
        ∧ it.set_recurring_cost .pynone = .error "cost must be a RandomType, float or int") := by
  refine ⟨fun rt => ⟨rfl, rfl⟩, fun x => ⟨rfl, rfl⟩, fun t => ⟨rfl, rfl⟩, rfl, rfl⟩

/-- C9: removal by name from a group or a sheet keeps exactly the elements
whose name is not in the given name set, preserves the order of the rest
(the result is a sublist of the original), and when no name matches it is
a no-op leaving the collection unchanged. -/
theorem c9_remove_by_names (g : CashFlowGroup) (sh : CashFlowSheet)
    (item_names group_names : List String) :
    ((g.remove_items item_names).items
        = g.items.filter (fun item => !(item_names.contains item.name)))
    ∧ (g.remove_items item_names).items.Sublist g.items
    ∧ ((∀ it ∈ g.items, item_names.contains it.name = false)
        → g.remove_items item_names = g)
    ∧ ((sh.remove_groups group_names).groups
        = sh.groups.filter (fun group => !(group_names.contains group.name)))
    ∧ (sh.remove_groups group_names).groups.Sublist sh.groups
    ∧ ((∀ gr ∈ sh.groups, group_names.contains gr.name = false)
        → sh.remove_groups group_names = sh) := by
  have hg : (g.remove_items item_names).items
      = g.items.filter (fun item => !(item_names.contains item.name)) := by
    simp [CashFlowGroup.remove_items, CashFlowGroup.set_items, CashFlowGroup.add_items]
  have hs : (sh.remove_groups group_names).groups
      = sh.groups.filter (fun group => !(group_names.contains group.name)) := by
    simp [CashFlowSheet.remove_groups, CashFlowSheet.set_groups, CashFlowSheet.add_groups]
  refine ⟨hg, ?_, ?_, hs, ?_, ?_⟩
  · rw [hg]; exact List.filter_sublist _
  · intro hnone
    have : g.items.filter (fun item => !(item_names.contains item.name)) = g.items := by
      rw [List.filter_eq_self]
      intro a ha
      simpa using hnone a ha
    cases g with
    | mk name desc items =>
        simp only [CashFlowGroup.remove_items, CashFlowGroup.set_items,
          CashFlowGroup.add_items] at *
        rw [List.nil_append, this]
  · rw [hs]; exact List.filter_sublist _
  · intro hnone
    have : sh.groups.filter (fun group => !(group_names.contains group.name)) = sh.groups := by
      rw [List.filter_eq_self]
      intro a ha
      simpa using hnone a ha
    cases sh with
    | mk groups =>
        simp only [CashFlowSheet.remove_groups, CashFlowSheet.set_groups,
          CashFlowSheet.add_groups] at *
        rw [List.nil_append, this]

/-- A concrete item used to instantiate theorems on the hierarchy. -/
def itemA : CashFlowItem :=
  { name := "machine", desc := "a machine",
    upfront_cost := .constant 100 ((0 : ℚ) : YearBound) ⊤,
    recurring_cost := .constant 10 ((0 : ℚ) : YearBound) ⊤ }

/-- A concrete group holding itemA. -/
def groupA : CashFlowGroup :=
  { name := "plant", desc := "the plant", items := [itemA] }

/-- A concrete sheet holding groupA. -/
def sheetA : CashFlowSheet :=
  { groups := [groupA] }

/-- Witness for C9: removing the absent name zz from the concrete group
and sheet leaves both unchanged. -/
theorem c9_remove_by_names_witness :
    groupA.remove_items ["zz"] = groupA ∧ sheetA.remove_groups ["zz"] = sheetA := by
  have h := c9_remove_by_names groupA sheetA ["zz"] ["zz"]
  exact ⟨h.2.2.1 (by decide), h.2.2.2.2.2 (by decide)⟩

/-- Length of a running sum equals the length of the input. -/
theorem cumsumFrom_length (l : List ℚ) : ∀ acc : ℚ, (cumsumFrom acc l).length = l.length := by
  induction l with
  | nil => intro acc; rfl
  | cons x xs ih => intro acc; simp [cumsumFrom, ih]

/-- Length of np.cumsum equals the length of the input. -/
theorem np_cumsum_length (l : List ℚ) : (np_cumsum l).length = l.length :=
  cumsumFrom_length l 0

/-- An in-range optional access agrees with the default access. -/
theorem get?_eq_some_getD : ∀ (l : List ℚ) (n : ℕ), n < l.length → l.get? n = some (l.getD n 0)
  | [], n, h => absurd h (by simp)
  | _ :: _, 0, _ => rfl
  | _ :: xs, n + 1, h => get?_eq_some_getD xs n (by simpa using h)

/-- Python indexing with a nonnegative in-range index is the plain list
access. -/
theorem pyGet_natCast (l : List ℚ) (n : ℕ) (h : n < l.length) :
    pyGet l (n : ℤ) = some (l.getD n 0) := by
  rw [pyGet]
  have h1 : ¬((n : ℤ) < 0) := by omega
  simp only [h1, if_false]
  have h2 : ((n : ℤ)).toNat = n := by omega
  rw [h2]
  exact get?_eq_some_getD l n h

/-- Python indexing with index -1 on a nonempty list reads the last
element. -/
theorem pyGet_neg_one (l : List ℚ) (h : 1 ≤ l.length) :
    pyGet l (-1) = some (l.getD (l.length - 1) 0) := by
  rw [pyGet]
  have h1 : ((-1 : ℤ) < 0) := by norm_num
  simp only [h1, if_true]
  have h2 : ¬((l.length : ℤ) + -1 < 0) := by omega
  rw [if_neg h2]
  have h3 : ((l.length : ℤ) + -1).toNat = l.length - 1 := by omega
  rw [h3]
  exact get?_eq_some_getD l (l.length - 1) (by omega)

/-- The loop of get_payback_period returns the first index at which the
cumulative cash flow is strictly positive, or years when no strictly
positive entry occurs at an index below years. -/
theorem firstPositiveYearLoop_finds (cumsum : List ℚ) (years tstar : ℕ)
    (hlen : years ≤ cumsum.length) (hts : tstar ≤ years)
    (hneg : ∀ i, i < tstar → ¬ 0 < cumsum.getD i 0)
    (hpos : 0 < cumsum.getD tstar 0 ∨ tstar = years) :
    ∀ remaining year, year + remaining = years → year ≤ tstar →
      firstPositiveYearLoop cumsum year remaining = some tstar := by
  intro remaining
  induction remaining with
  | zero =>
      intro year hsum hle
      have h1 : year = years := by omega
      have h2 : tstar = year := by omega
      rw [firstPositiveYearLoop, h2]
  | succ n ih =>
      intro year hsum hle
      have hylt : year < years := by omega
      have hget : cumsum.get? year = some (cumsum.getD year 0) :=
        get?_eq_some_getD _ _ (by omega)
      by_cases hy : year = tstar
      · subst hy
        rcases hpos with hp | hp
        · rw [firstPositiveYearLoop, hget]
          show (if 0 < cumsum.getD year 0 then some year
              else firstPositiveYearLoop cumsum (year + 1) n) = some year
          rw [if_pos hp]
        · omega
      · have hylt_ts : year < tstar := by omega
        rw [firstPositiveYearLoop, hget]
        show (if 0 < cumsum.getD year 0 then some year
            else firstPositiveYearLoop cumsum (year + 1) n) = some tstar
        rw [if_neg (hneg year hylt_ts)]
        exact ih (year + 1) (by omega) (by omega)

/-- The interpolation formula computed by payback_of_net for the first
strictly positive cumulative index t* when it is at least 1. -/
theorem payback_formula (years : ℕ) (net : List ℚ) (tstar : ℕ)
    (hlen : net.length = years + 1)
    (h1 : 1 ≤ tstar) (h2 : tstar ≤ years)
    (hneg : ∀ i, i < tstar → ¬ 0 < (np_cumsum net).getD i 0)
    (hpos : 0 < (np_cumsum net).getD tstar 0 ∨ tstar = years) :
    payback_of_net years net
      = some (((tstar : ℚ) - 1)
          + |(np_cumsum net).getD (tstar - 1) 0 / net.getD tstar 0|) := by
  have hclen : (np_cumsum net).length = years + 1 := by
    rw [np_cumsum_length, hlen]
  have hfind : firstPositiveYearLoop (np_cumsum net) 0 years = some tstar :=
    firstPositiveYearLoop_finds _ years tstar (by omega) h2 hneg hpos years 0
      (by omega) (by omega)
  have hcast : ((tstar : ℤ) - 1) = ((tstar - 1 : ℕ) : ℤ) := by omega
  have hpy1 : pyGet (np_cumsum net) ((tstar : ℤ) - 1)
      = some ((np_cumsum net).getD (tstar - 1) 0) := by
    rw [hcast]
    exact pyGet_natCast _ _ (by omega)
  have hpy2 : pyGet net (tstar : ℤ) = some (net.getD tstar 0) :=
    pyGet_natCast _ _ (by omega)
  rw [payback_of_net]
  simp only [hfind, hpy1, hpy2]
  congr 1
  push_cast
  ring

/-- C2: on a sampled net cash flow of length years+1, get_payback_period
returns (t* - 1) + abs(cumsum[t* - 1] / net_cash_flow[t*]) for the first
year index t* at which the cumulative cash flow is strictly positive
(with the convention t* = years when no earlier index is positive, which
is also what the loop yields when the first positive index is exactly
years); in particular on net_cash_flow = [-100, 30, 30, 30, 30] with
years = 4 it returns 10/3 = 3.333... . The statement requires t* at least
1; the boundary t* = 0 is claim C10. -/
theorem c2_payback_period (s : Summary) (rng : Rng) (tstar : ℕ)
    (hsampled : s.sampled = true)
    (hlen : s.netCache.length = s.years + 1)
    (h1 : 1 ≤ tstar) (h2 : tstar ≤ s.years)
    (hneg : ∀ i, i < tstar → ¬ 0 < (np_cumsum s.netCache).getD i 0)
    (hpos : 0 < (np_cumsum s.netCache).getD tstar 0 ∨ tstar = s.years) :
    (s.get_payback_period rng).1
      = some (((tstar : ℚ) - 1)
          + |(np_cumsum s.netCache).getD (tstar - 1) 0 / s.netCache.getD tstar 0|)
    ∧ (∀ (s2 : Summary) (rng2 : Rng), s2.sampled = true → s2.years = 4 →
        s2.netCache = [-100, 30, 30, 30, 30] →
        (s2.get_payback_period rng2).1 = some (10 / 3)) := by
  constructor
  · simp only [Summary.get_payback_period, hsampled, if_true]
    exact payback_formula s.years s.netCache tstar hlen h1 h2 hneg hpos
  · intro s2 rng2 hs2 hy2 hn2
    simp only [Summary.get_payback_period, hs2, if_true]
    rw [hy2, hn2]
    have hcs : np_cumsum [-100, 30, 30, 30, 30] = [-100, -70, -40, -10, 20] := by
      norm_num [np_cumsum, cumsumFrom]
    have h := payback_formula 4 [-100, 30, 30, 30, 30] 4 (by simp)
      (by norm_num) (by norm_num)
      (by
        intro i hi
        rw [hcs]
        interval_cases i <;> norm_num)
      (Or.inr rfl)
    rw [h, hcs]
    rw [show ([-100, -70, -40, -10, 20] : List ℚ).getD (4 - 1) 0 = -10 from rfl,
      show ([-100, 30, 30, 30, 30] : List ℚ).getD 4 0 = 30 from rfl,
      show |(-10 : ℚ) / 30| = 1 / 3 from by norm_num]
    norm_num

/-- A concrete sampled engine state for the payback period theorems. -/
def summaryW2 : Summary :=
  { cash_flow_sheet := { groups := [] }, interest_rate := 0, years := 2,
    iterations := 1, sampled := true, totalCache := [],
    netCache := [-1, -1, 3] }

/-- Witness for C2: on the sampled net cash flow [-1, -1, 3] with
years = 2 the payback period is 1 + abs(-2/3) = 5/3. -/
theorem c2_payback_period_witness :
    (summaryW2.get_payback_period rng0).1 = some (5 / 3) := by
  have hcs : np_cumsum summaryW2.netCache = [-1, -2, 1] := by
    norm_num [np_cumsum, cumsumFrom, summaryW2]
  have h := (c2_payback_period summaryW2 rng0 2 rfl (by decide) (by decide) (by decide)
    (by
      intro i hi
      rw [hcs]
      interval_cases i <;> norm_num)
    (by
      left
      rw [hcs]
      norm_num)).1
  rw [h, hcs]
  show some ((2 : ℚ) - 1 + |([-1, -2, 1] : List ℚ).getD 1 0 / summaryW2.netCache.getD 2 0|)
      = some (5 / 3)
  rw [show ([-1, -2, 1] : List ℚ).getD 1 0 = -2 from rfl,
    show summaryW2.netCache.getD 2 0 = 3 from rfl,
    show |(-2 : ℚ) / 3| = 2 / 3 from by norm_num]
  norm_num

/-- Equation form of Summary.sample_cash_flow: both caches are filled from
one call to the sheet and the sampled flag is set. -/
theorem sample_cash_flow_eq (s : Summary) (rng : Rng) :
    s.sample_cash_flow rng =
      ({ s with totalCache := ((s.cash_flow_sheet.get_cash_flow s.years rng).1).1,
                netCache := ((s.cash_flow_sheet.get_cash_flow s.years rng).1).2,
                sampled := true },
        (s.cash_flow_sheet.get_cash_flow s.years rng).2) := by
  rcases h : s.cash_flow_sheet.get_cash_flow s.years rng with ⟨⟨t, n⟩, r⟩
  simp [Summary.sample_cash_flow, h]

/-- C3: reading total_cash_flow or net_cash_flow, or calling get_IRR,
get_NPV or get_payback_period, while the sampled flag is false triggers
exactly one call to sample_cash_flow — the resulting engine state and
oracle are exactly those of a single sample_cash_flow call, whose state
has the sampled flag set and both caches filled; while the flag is true
every such read returns the cached value with the engine state and the
oracle unchanged, so no distribution is resampled until sample_cash_flow
is explicitly called again. The external root finder np.irr is
quantified over, as the caching layer is independent of it. -/
theorem c3_lazy_caching (np_irr : List ℚ → ℚ) (s : Summary) (rng : Rng) :
    (s.sampled = false →
      s.total_cash_flow rng = ((s.sample_cash_flow rng).1.totalCache, s.sample_cash_flow rng)
      ∧ s.net_cash_flow rng = ((s.sample_cash_flow rng).1.netCache, s.sample_cash_flow rng)
      ∧ s.get_NPV rng
          = (np_npv s.interest_rate (s.sample_cash_flow rng).1.netCache, s.sample_cash_flow rng)
      ∧ s.get_payback_period rng
          = (payback_of_net s.years (s.sample_cash_flow rng).1.netCache, s.sample_cash_flow rng)
      ∧ Summary.get_IRR np_irr s rng
          = (np_irr (s.sample_cash_flow rng).1.netCache, s.sample_cash_flow rng)
      ∧ (s.sample_cash_flow rng).1.sampled = true)
    ∧ (s.sampled = true →
      s.total_cash_flow rng = (s.totalCache, s, rng)
      ∧ s.net_cash_flow rng = (s.netCache, s, rng)
      ∧ s.get_NPV rng = (np_npv s.interest_rate s.netCache, s, rng)
      ∧ s.get_payback_period rng = (payback_of_net s.years s.netCache, s, rng)
      ∧ Summary.get_IRR np_irr s rng = (np_irr s.netCache, s, rng)) := by
  constructor
  · intro hs
    have hsc := sample_cash_flow_eq s rng
    refine ⟨?_, ?_, ?_, ?_, ?_, ?_⟩
    · simp [Summary.total_cash_flow, hs, hsc]
    · simp [Summary.net_cash_flow, hs, hsc]
    · simp [Summary.get_NPV, hs, hsc]
    · simp [Summary.get_payback_period, hs, hsc]
    · simp [Summary.get_IRR, hs, hsc]
    · rw [hsc]
  · intro hs
    refine ⟨?_, ?_, ?_, ?_, ?_⟩
    · simp [Summary.total_cash_flow, hs]
    · simp [Summary.net_cash_flow, hs]
    · simp [Summary.get_NPV, hs]
    · simp [Summary.get_payback_period, hs]
    · simp [Summary.get_IRR, hs]

/-- A concrete unsampled engine state over the concrete sheet. -/
def summaryW3 : Summary :=
  { cash_flow_sheet := sheetA, interest_rate := 1 / 10, years := 2,
    iterations := 1, sampled := false, totalCache := [], netCache := [] }

/-- A concrete sampled engine state for the cached branch of C3. -/
def summaryW3s : Summary :=
  { cash_flow_sheet := sheetA, interest_rate := 1 / 10, years := 2,
    iterations := 1, sampled := true, totalCache := [[[100]], [[10]], [[10]]],
    netCache := [100, 10, 10] }

/-- Witness for C3: the unsampled read equals one sampling call on the
concrete engine, and the sampled read returns the cache unchanged. -/
theorem c3_lazy_caching_witness :
    (summaryW3.total_cash_flow rng0
        = ((summaryW3.sample_cash_flow rng0).1.totalCache, summaryW3.sample_cash_flow rng0))
    ∧ (summaryW3s.net_cash_flow rng0 = (summaryW3s.netCache, summaryW3s, rng0)) :=
  ⟨((c3_lazy_caching (fun _ => 0) summaryW3 rng0).1 rfl).1,
   ((c3_lazy_caching (fun _ => 0) summaryW3s rng0).2 rfl).2.1⟩

/-- The range-indexed sum of default accesses is the list sum. -/
theorem sum_range_getD (l : List ℚ) :
    ∑ t ∈ Finset.range l.length, l.getD t 0 = l.sum := by
  induction l with
  | nil => simp
  | cons x xs ih =>
      rw [List.length_cons, Finset.sum_range_succ']
      simp only [List.getD_cons_succ, List.getD_cons_zero, List.sum_cons]
      rw [ih, add_comm]

/-- C7: on a sampled net cash flow of length years+1, get_NPV equals the
sum over t = 0..years of net_cash_flow[t] / (1+interest_rate)^t, and at
interest_rate = 0 it equals the unweighted sum of net_cash_flow. -/
theorem c7_npv (s : Summary) (rng : Rng)
    (hsampled : s.sampled = true)
    (hlen : s.netCache.length = s.years + 1) :
    (s.get_NPV rng).1
      = ∑ t ∈ Finset.range (s.years + 1), s.netCache.getD t 0 / (1 + s.interest_rate) ^ t
    ∧ (s.interest_rate = 0 → (s.get_NPV rng).1 = s.netCache.sum) := by
  have hmain : (s.get_NPV rng).1 = np_npv s.interest_rate s.netCache := by
    simp [Summary.get_NPV, hsampled]
  constructor
  · rw [hmain, np_npv, hlen]
  · intro h0
    rw [hmain, np_npv, h0]
    simp only [add_zero, one_pow, div_one]
    exact sum_range_getD s.netCache

/-- A concrete sampled engine state with zero interest rate. -/
def summaryW7 : Summary :=
  { cash_flow_sheet := { groups := [] }, interest_rate := 0, years := 1,
    iterations := 1, sampled := true, totalCache := [], netCache := [1, 2] }

/-- Witness for C7: at interest rate 0 the NPV of the sampled net cash
flow [1, 2] is its plain sum 3. -/
theorem c7_npv_witness : (summaryW7.get_NPV rng0).1 = 3 := by
  have h := (c7_npv summaryW7 rng0 rfl (by decide)).2 rfl
  rw [h]
  norm_num [summaryW7]

/-- C10: when the cumulative cash flow is already strictly positive at
year 0, the loop stops at first_positive_year = 0, complete_years is -1,
and the Python access cumsum_cash_flow[-1] reads the last cumulative
entry (index years); the call returns -1 + abs(cumsum[years] /
net_cash_flow[0]) and raises no out-of-range error (the result is some,
never none). -/
theorem c10_payback_degenerate (s : Summary) (rng : Rng)
    (hsampled : s.sampled = true)
    (hlen : s.netCache.length = s.years + 1)
    (hpos : 0 < (np_cumsum s.netCache).getD 0 0) :
    (s.get_payback_period rng).1
      = some ((-1 : ℚ) + |(np_cumsum s.netCache).getD s.years 0 / s.netCache.getD 0 0|)
    ∧ ((s.get_payback_period rng).1).isSome = true := by
  have hclen : (np_cumsum s.netCache).length = s.years + 1 := by
    rw [np_cumsum_length, hlen]
  have hfind : firstPositiveYearLoop (np_cumsum s.netCache) 0 s.years = some 0 := by
    cases hy : s.years with
    | zero => rfl
    | succ n =>
        have h0 : (np_cumsum s.netCache).get? 0
            = some ((np_cumsum s.netCache).getD 0 0) :=
          get?_eq_some_getD _ _ (by omega)
        rw [firstPositiveYearLoop, h0]
        show (if 0 < (np_cumsum s.netCache).getD 0 0 then some 0
            else firstPositiveYearLoop (np_cumsum s.netCache) (0 + 1) n) = some 0
        rw [if_pos hpos]
  have hidx : (np_cumsum s.netCache).length - 1 = s.years := by omega
  have hpy1 : pyGet (np_cumsum s.netCache) (((0 : ℕ) : ℤ) - 1)
      = some ((np_cumsum s.netCache).getD s.years 0) := by
    have h01 : (((0 : ℕ) : ℤ) - 1) = (-1 : ℤ) := by norm_num
    rw [h01, pyGet_neg_one _ (by omega), hidx]
  have hpy2 : pyGet s.netCache ((0 : ℕ) : ℤ) = some (s.netCache.getD 0 0) :=
    pyGet_natCast _ _ (by omega)
  have hmain : (s.get_payback_period rng).1
      = some ((-1 : ℚ) + |(np_cumsum s.netCache).getD s.years 0 / s.netCache.getD 0 0|) := by
    simp only [Summary.get_payback_period, hsampled, if_true]
    rw [payback_of_net]
    simp only [hfind, hpy1, hpy2]
    norm_num
  exact ⟨hmain, by rw [hmain]; rfl⟩

/-- A concrete sampled engine state whose net cash flow is positive from
year 0. -/
def summaryW10 : Summary :=
  { cash_flow_sheet := { groups := [] }, interest_rate := 0, years := 1,
    iterations := 1, sampled := true, totalCache := [], netCache := [2, 5] }

/-- Witness for C10: on the sampled net cash flow [2, 5] (already
positive at year 0) with years = 1 the call returns -1 + abs(7/2) = 5/2
and raises no error. -/
theorem c10_payback_degenerate_witness :
    (summaryW10.get_payback_period rng0).1 = some (5 / 2) := by
  have hcs : np_cumsum summaryW10.netCache = [2, 7] := by
    norm_num [np_cumsum, cumsumFrom, summaryW10]
  have h := (c10_payback_degenerate summaryW10 rng0 rfl (by decide)
    (by rw [hcs]; norm_num)).1
  rw [h, hcs]
  show some ((-1 : ℚ) + |([2, 7] : List ℚ).getD 1 0 / summaryW10.netCache.getD 0 0|)
      = some (5 / 2)
  rw [show ([2, 7] : List ℚ).getD 1 0 = 7 from rfl,
    show summaryW10.netCache.getD 0 0 = 2 from rfl,
    show |(7 : ℚ) / 2| = 7 / 2 from by norm_num]
  norm_num

/-- A concrete Summary with a non-default iteration count, for the
serialization round trip. -/
def summaryW4 : Summary :=
  { cash_flow_sheet := sheetA, interest_rate := 1 / 10, years := 10,
    iterations := 5, sampled := false, totalCache := [], netCache := [] }

/-- C4: evaluation of the claimed round trip at a Summary whose iteration
count is 5. Serializing writes the Iterations text 5, but deserializing
never reads it and rebuilds the Summary with the constructor default
10000 — the round trip does not preserve the iterations field, although
every other field (sheet with its items and distributions, interest rate,
years) is preserved. -/
theorem c4_roundtrip_resets_iterations :
    summaryW4.iterations = 5
    ∧ (summaryW4.generate_etree_element).iterations = 5
    ∧ Summary.create_from_etree_element (summaryW4.generate_etree_element)
        = .ok { cash_flow_sheet := summaryW4.cash_flow_sheet,
                interest_rate := summaryW4.interest_rate,
                years := summaryW4.years, iterations := 10000,
                sampled := false, totalCache := [], netCache := [] } := by
  refine ⟨rfl, by norm_num [summaryW4, Summary.generate_etree_element], ?_⟩
  show Summary.create_from_etree_element (summaryW4.generate_etree_element) = _
  rfl

/-- Counterexample to C5 as stated: the claim says the dispatch fails
rather than returning a value on an unrecognized tag, but the source
dispatch has no raising path at all — the chain of tag comparisons falls
off the end of the function and Python returns the value None. -/
theorem c5_counterexample :
    random_type.create_from_etree_element (RTElem.unknownE "Uniform") = none := rfl

/-- C5 amended: deserializing a distribution record with an unrecognized
tag is not a hard error of the dispatch itself — create_from_etree_element
returns None. The load of the enclosing item still aborts with no item
built: the None cost reaches _checkCost through the item constructor,
which rejects it with its TypeError. -/
theorem c5_unknown_tag_dispatch (tag : String) (e : ItemElem)
    (h : e.upfrontCost = RTElem.unknownE tag) :
    random_type.create_from_etree_element (RTElem.unknownE tag) = none
    ∧ CashFlowItem.create_from_etree_element e
        = .error "cost must be a RandomType, float or int" := by
  refine ⟨rfl, ?_⟩
  rw [CashFlowItem.create_from_etree_element, h]
  rfl

/-- Witness for C5: a concrete item element whose upfront cost carries
the unrecognized tag Uniform is rejected by the item load. -/
theorem c5_unknown_tag_dispatch_witness :
    random_type.create_from_etree_element (RTElem.unknownE "Uniform") = none
    ∧ CashFlowItem.create_from_etree_element
        { name := "x", desc := none, upfrontCost := RTElem.unknownE "Uniform",
          recurringCost := RTElem.constantE 0 none none }
        = .error "cost must be a RandomType, float or int" :=
  c5_unknown_tag_dispatch "Uniform"
    { name := "x", desc := none, upfrontCost := RTElem.unknownE "Uniform",
      recurringCost := RTElem.constantE 0 none none } rfl

end RoI
